import Mathlib

/-!
Verification of the style-refinement fluent builder surface
(`crates/gpui2/src/styled.rs`): the data model it mutates and each builder
method, with theorems settling the spec's testable properties.

Numeric style values (pixels, rem multipliers, fractions, color components,
flex factors) are embedded as rationals: the builder surface only constructs
and stores literal values, it performs no floating-point arithmetic, so the
embedding is lossless on every value occurring in the code.
-/

/-- Modelled from the spec: device-independent pixel length (`Pixels`), a pure
numeric wrapper; the builder only constructs and compares such values. -/
structure Pixels where
  val : ℚ
deriving DecidableEq, Repr

/-- Modelled from the spec: construction of a pixel length (`px`). -/
def px (v : ℚ) : Pixels := ⟨v⟩

/-- Modelled from the spec: font-relative length, a multiplier of the root
font size (`Rems`). -/
structure Rems where
  val : ℚ
deriving DecidableEq, Repr

/-- Modelled from the spec: construction of a font-relative length (`rems`). -/
def rems (v : ℚ) : Rems := ⟨v⟩

/-- Modelled from the spec: a length that resolves without knowing the
container: absolute pixels or font-relative rems (`AbsoluteLength`). -/
inductive AbsoluteLength where
  | Pixels (v : Pixels)
  | Rems (v : Rems)
deriving DecidableEq, Repr

/-- Modelled from the spec: a definite length: absolute, or a fraction of the
enclosing container's size on one axis (`DefiniteLength`). -/
inductive DefiniteLength where
  | Absolute (v : AbsoluteLength)
  | Fraction (fraction : ℚ)
deriving DecidableEq, Repr

/-- Modelled from the spec: construction of a container-relative fraction
(`relative`). -/
def relative (fraction : ℚ) : DefiniteLength := DefiniteLength.Fraction fraction

/-- Modelled from the spec: a length as used for sizing and flex basis:
definite, or `Auto` resolved by the layout solver (`Length`). -/
inductive Length where
  | Definite (v : DefiniteLength)
  | Auto
deriving DecidableEq, Repr

/-- Modelled from the spec: hue-saturation-lightness-alpha color; each
component a fractional value; pure data with exact field equality (`Hsla`). -/
structure Hsla where
  h : ℚ
  s : ℚ
  l : ℚ
  a : ℚ
deriving DecidableEq, Repr

/-- Modelled from the spec: construction of an `Hsla` color from its four
components (`hsla`); construction only, no conversion, out-of-range input is
accepted as data. -/
def hsla (h s l a : ℚ) : Hsla := ⟨h, s, l, a⟩

/-- Modelled from the spec: a background fill; the fragment only ever uses a
solid color fill (`Fill`). -/
inductive Fill where
  | Color (color : Hsla)
deriving DecidableEq, Repr

/-- Modelled from the spec: a 2-dimensional point, used for shadow offsets
(`Point`). -/
structure Point (α : Type) where
  x : α
  y : α
deriving DecidableEq, Repr

/-- Modelled from the spec: construction of a point (`point`). -/
def point {α : Type} (x y : α) : Point α := ⟨x, y⟩

/-- Modelled from the spec: one box-shadow descriptor: color, offset, blur
radius, spread radius (`BoxShadow`). -/
structure BoxShadow where
  color : Hsla
  offset : Point Pixels
  blur_radius : Pixels
  spread_radius : Pixels
deriving DecidableEq, Repr

/-- Modelled from the spec: position mode (`Position`): static, relative or
absolute. -/
inductive Position where
  | Static
  | Relative
  | Absolute
deriving DecidableEq, Repr

/-- Modelled from the spec: display mode (`Display`): block, flex or none. -/
inductive Display where
  | Block
  | Flex
  | None
deriving DecidableEq, Repr

/-- Modelled from the spec: visibility (`Visibility`), distinct from
`display: none` since hidden elements still occupy layout space. -/
inductive Visibility where
  | Visible
  | Hidden
deriving DecidableEq, Repr

/-- Modelled from the spec: per-axis overflow behavior (`Overflow`). -/
inductive Overflow where
  | Visible
  | Hidden
  | Scroll
deriving DecidableEq, Repr

/-- Modelled from the spec: the platform-agnostic cursor-shape enumeration
(`CursorStyle`) targeted by the fixed cursor-intent lookup table. -/
inductive CursorStyle where
  | Arrow
  | PointingHand
  | IBeam
  | ClosedHand
  | OpenHand
  | OperationNotAllowed
  | ContextualMenu
  | Crosshair
  | IBeamCursorForVerticalLayout
  | DragLink
  | DragCopy
  | ResizeLeftRight
  | ResizeUpDown
  | ResizeUp
  | ResizeRight
  | ResizeDown
  | ResizeLeft
deriving DecidableEq, Repr

/-- Modelled from the spec: whitespace handling for text (`WhiteSpace`). -/
inductive WhiteSpace where
  | Normal
  | Nowrap
deriving DecidableEq, Repr

/-- Modelled from the spec: flex-container direction (`FlexDirection`). -/
inductive FlexDirection where
  | Row
  | Column
  | RowReverse
  | ColumnReverse
deriving DecidableEq, Repr

/-- Modelled from the spec: cross-axis alignment of flex items
(`AlignItems`). -/
inductive AlignItems where
  | FlexStart
  | FlexEnd
  | Center
  | Baseline
  | Stretch
deriving DecidableEq, Repr

/-- Modelled from the spec: main-axis justification of flex items
(`JustifyContent`). -/
inductive JustifyContent where
  | Start
  | End
  | Center
  | SpaceBetween
  | SpaceAround
deriving DecidableEq, Repr

/-- Modelled from the spec: the underline descriptor nested in a text style:
optional explicit color, thickness in pixels, wavy-vs-solid flag
(`UnderlineStyle`); its `Default` is no explicit color, zero thickness,
solid. -/
structure UnderlineStyle where
  thickness : Pixels := px 0
  color : Option Hsla := none
  wavy : Bool := false
deriving DecidableEq, Repr

instance : Inhabited UnderlineStyle := ⟨{}⟩

/-- Modelled from the spec: the partial text style nested in a style
refinement (`TextStyleRefinement`): every field optional, absent meaning
"inherit"; the underline descriptor is lazily materialized by the builder. -/
structure TextStyleRefinement where
  color : Option Hsla := none
  font_family : Option String := none
  font_size : Option AbsoluteLength := none
  line_height : Option DefiniteLength := none
  background_color : Option Hsla := none
  underline : Option UnderlineStyle := none
  white_space : Option WhiteSpace := none
deriving DecidableEq, Repr

instance : Inhabited TextStyleRefinement := ⟨{}⟩

/-- Modelled from the spec: the width/height pair of a style refinement, each
independently optional (`size` as mutated through `size_mut`). -/
structure SizeRefinement where
  width : Option Length := none
  height : Option Length := none
deriving DecidableEq, Repr

/-- Modelled from the spec: the per-axis overflow pair of a style refinement
(`overflow` as mutated through `overflow_mut`). -/
structure OverflowRefinement where
  x : Option Overflow := none
  y : Option Overflow := none
deriving DecidableEq, Repr

/-- Modelled from the spec: the partial layout/visual style record
(`StyleRefinement`) mutated by the fluent builder surface: every scalar field
optional (present = explicitly set at this layer, absent = inherit), plus the
nested size, overflow and text sub-records. The `*_mut` accessors used by the
builder materialize an absent scalar field before overwriting it, so at this
granularity a builder write of value `v` stores `some v`. -/
structure StyleRefinement where
  z_index : Option Nat := none
  size : SizeRefinement := {}
  position : Option Position := none
  display : Option Display := none
  visibility : Option Visibility := none
  overflow : OverflowRefinement := {}
  mouse_cursor : Option CursorStyle := none
  flex_direction : Option FlexDirection := none
  flex_grow : Option ℚ := none
  flex_shrink : Option ℚ := none
  flex_basis : Option Length := none
  align_items : Option AlignItems := none
  justify_content : Option JustifyContent := none
  background : Option Fill := none
  border_color : Option Hsla := none
  box_shadow : Option (List BoxShadow) := none
  text : TextStyleRefinement := {}
deriving DecidableEq, Repr

instance : Inhabited StyleRefinement := ⟨{}⟩

/-!
The fluent builder surface: one Lean function per method of the `Styled`
trait, in source order. Each method takes the refinement record (the Rust
`self`) first and returns the updated record; a Rust write through a `*_mut`
accessor (which materializes an absent field before overwriting it) appears
as storing `some v` in the corresponding optional field.
-/

namespace Styled

/-- `fn z_index`: sets the z-order index. -/
def z_index (s : StyleRefinement) (z : Nat) : StyleRefinement :=
  { s with z_index := some z }

/-- `fn full`: sets the size of the element to the full width and height. -/
def full (s : StyleRefinement) : StyleRefinement :=
  { s with size := { s.size with
      width := some (Length.Definite (DefiniteLength.Fraction 1)),
      height := some (Length.Definite (DefiniteLength.Fraction 1)) } }

/-- `fn relative`: sets the position of the element to `relative`. -/
def relative (s : StyleRefinement) : StyleRefinement :=
  { s with position := some Position.Relative }

/-- `fn absolute`: sets the position of the element to `absolute`. -/
def absolute (s : StyleRefinement) : StyleRefinement :=
  { s with position := some Position.Absolute }

/-- `fn block`: sets the display type of the element to `block`. -/
def block (s : StyleRefinement) : StyleRefinement :=
  { s with display := some Display.Block }

/-- `fn flex`: sets the display type of the element to `flex`. -/
def flex (s : StyleRefinement) : StyleRefinement :=
  { s with display := some Display.Flex }

/-- `fn visible`: sets the visibility of the element to `visible`. -/
def visible (s : StyleRefinement) : StyleRefinement :=
  { s with visibility := some Visibility.Visible }

/-- `fn invisible`: sets the visibility of the element to `hidden`. -/
def invisible (s : StyleRefinement) : StyleRefinement :=
  { s with visibility := some Visibility.Hidden }

/-- `fn overflow_hidden`: hides overflow on both axes. -/
def overflow_hidden (s : StyleRefinement) : StyleRefinement :=
  { s with overflow := { s.overflow with
      x := some Overflow.Hidden, y := some Overflow.Hidden } }

/-- `fn overflow_hidden_x`: hides overflow on the x axis. -/
def overflow_hidden_x (s : StyleRefinement) : StyleRefinement :=
  { s with overflow := { s.overflow with x := some Overflow.Hidden } }

/-- `fn overflow_hidden_y`: hides overflow on the y axis. -/
def overflow_hidden_y (s : StyleRefinement) : StyleRefinement :=
  { s with overflow := { s.overflow with y := some Overflow.Hidden } }

/-- `fn cursor`: sets the cursor style to the given shape. -/
def cursor (s : StyleRefinement) (c : CursorStyle) : StyleRefinement :=
  { s with mouse_cursor := some c }

/-- `fn cursor_default`. -/
def cursor_default (s : StyleRefinement) : StyleRefinement :=
  { s with mouse_cursor := some CursorStyle.Arrow }

/-- `fn cursor_pointer`. -/
def cursor_pointer (s : StyleRefinement) : StyleRefinement :=
  { s with mouse_cursor := some CursorStyle.PointingHand }

/-- `fn cursor_text`. -/
def cursor_text (s : StyleRefinement) : StyleRefinement :=
  { s with mouse_cursor := some CursorStyle.IBeam }

/-- `fn cursor_move`. -/
def cursor_move (s : StyleRefinement) : StyleRefinement :=
  { s with mouse_cursor := some CursorStyle.ClosedHand }

/-- `fn cursor_not_allowed`. -/
def cursor_not_allowed (s : StyleRefinement) : StyleRefinement :=
  { s with mouse_cursor := some CursorStyle.OperationNotAllowed }

/-- `fn cursor_context_menu`. -/
def cursor_context_menu (s : StyleRefinement) : StyleRefinement :=
  { s with mouse_cursor := some CursorStyle.ContextualMenu }

/-- `fn cursor_crosshair`. -/
def cursor_crosshair (s : StyleRefinement) : StyleRefinement :=
  { s with mouse_cursor := some CursorStyle.Crosshair }

/-- `fn cursor_vertical_text`. -/
def cursor_vertical_text (s : StyleRefinement) : StyleRefinement :=
  { s with mouse_cursor := some CursorStyle.IBeamCursorForVerticalLayout }

/-- `fn cursor_alias`. -/
def cursor_alias (s : StyleRefinement) : StyleRefinement :=
  { s with mouse_cursor := some CursorStyle.DragLink }

/-- `fn cursor_copy`. -/
def cursor_copy (s : StyleRefinement) : StyleRefinement :=
  { s with mouse_cursor := some CursorStyle.DragCopy }

/-- `fn cursor_no_drop`. -/
def cursor_no_drop (s : StyleRefinement) : StyleRefinement :=
  { s with mouse_cursor := some CursorStyle.OperationNotAllowed }

/-- `fn cursor_grab`. -/
def cursor_grab (s : StyleRefinement) : StyleRefinement :=
  { s with mouse_cursor := some CursorStyle.OpenHand }

/-- `fn cursor_grabbing`. -/
def cursor_grabbing (s : StyleRefinement) : StyleRefinement :=
  { s with mouse_cursor := some CursorStyle.ClosedHand }

/-- `fn cursor_col_resize`. -/
def cursor_col_resize (s : StyleRefinement) : StyleRefinement :=
  { s with mouse_cursor := some CursorStyle.ResizeLeftRight }

/-- `fn cursor_row_resize`. -/
def cursor_row_resize (s : StyleRefinement) : StyleRefinement :=
  { s with mouse_cursor := some CursorStyle.ResizeUpDown }

/-- `fn cursor_n_resize`. -/
def cursor_n_resize (s : StyleRefinement) : StyleRefinement :=
  { s with mouse_cursor := some CursorStyle.ResizeUp }

/-- `fn cursor_e_resize`. -/
def cursor_e_resize (s : StyleRefinement) : StyleRefinement :=
  { s with mouse_cursor := some CursorStyle.ResizeRight }

/-- `fn cursor_s_resize`. -/
def cursor_s_resize (s : StyleRefinement) : StyleRefinement :=
  { s with mouse_cursor := some CursorStyle.ResizeDown }

/-- `fn cursor_w_resize`. -/
def cursor_w_resize (s : StyleRefinement) : StyleRefinement :=
  { s with mouse_cursor := some CursorStyle.ResizeLeft }

/-- `fn whitespace_normal`: sets the whitespace of the text style to
`normal`. -/
def whitespace_normal (s : StyleRefinement) : StyleRefinement :=
  { s with text := { s.text with white_space := some WhiteSpace.Normal } }

/-- `fn whitespace_nowrap`: sets the whitespace of the text style to
`nowrap`. -/
def whitespace_nowrap (s : StyleRefinement) : StyleRefinement :=
  { s with text := { s.text with white_space := some WhiteSpace.Nowrap } }

/-- `fn flex_col`: sets the flex direction to `column`. -/
def flex_col (s : StyleRefinement) : StyleRefinement :=
  { s with flex_direction := some FlexDirection.Column }

/-- `fn flex_col_reverse`: sets the flex direction to `column-reverse`. -/
def flex_col_reverse (s : StyleRefinement) : StyleRefinement :=
  { s with flex_direction := some FlexDirection.ColumnReverse }

/-- `fn flex_row`: sets the flex direction to `row`. -/
def flex_row (s : StyleRefinement) : StyleRefinement :=
  { s with flex_direction := some FlexDirection.Row }

/-- `fn flex_row_reverse`: sets the flex direction to `row-reverse`. -/
def flex_row_reverse (s : StyleRefinement) : StyleRefinement :=
  { s with flex_direction := some FlexDirection.RowReverse }

/-- `fn flex_1`: grow = 1, shrink = 1, basis = container-relative 0. -/
def flex_1 (s : StyleRefinement) : StyleRefinement :=
  { s with flex_grow := some 1, flex_shrink := some 1,
           flex_basis := some (Length.Definite (DefiniteLength.Fraction 0)) }

/-- `fn flex_auto`: grow = 1, shrink = 1, basis = auto. -/
def flex_auto (s : StyleRefinement) : StyleRefinement :=
  { s with flex_grow := some 1, flex_shrink := some 1,
           flex_basis := some Length.Auto }

/-- `fn flex_initial`: grow = 0, shrink = 1, basis = auto. -/
def flex_initial (s : StyleRefinement) : StyleRefinement :=
  { s with flex_grow := some 0, flex_shrink := some 1,
           flex_basis := some Length.Auto }

/-- `fn flex_none`: grow = 0, shrink = 0. -/
def flex_none (s : StyleRefinement) : StyleRefinement :=
  { s with flex_grow := some 0, flex_shrink := some 0 }

/-- `fn flex_grow`: grow = 1. -/
def flex_grow (s : StyleRefinement) : StyleRefinement :=
  { s with flex_grow := some 1 }

/-- `fn items_start`. -/
def items_start (s : StyleRefinement) : StyleRefinement :=
  { s with align_items := some AlignItems.FlexStart }

/-- `fn items_end`. -/
def items_end (s : StyleRefinement) : StyleRefinement :=
  { s with align_items := some AlignItems.FlexEnd }

/-- `fn items_center`. -/
def items_center (s : StyleRefinement) : StyleRefinement :=
  { s with align_items := some AlignItems.Center }

/-- `fn justify_between`. -/
def justify_between (s : StyleRefinement) : StyleRefinement :=
  { s with justify_content := some JustifyContent.SpaceBetween }

/-- `fn justify_center`. -/
def justify_center (s : StyleRefinement) : StyleRefinement :=
  { s with justify_content := some JustifyContent.Center }

/-- `fn justify_start`. -/
def justify_start (s : StyleRefinement) : StyleRefinement :=
  { s with justify_content := some JustifyContent.Start }

/-- `fn justify_end`. -/
def justify_end (s : StyleRefinement) : StyleRefinement :=
  { s with justify_content := some JustifyContent.End }

/-- `fn justify_around`. -/
def justify_around (s : StyleRefinement) : StyleRefinement :=
  { s with justify_content := some JustifyContent.SpaceAround }

/-- `fn bg`: sets the background fill of the element. -/
def bg (s : StyleRefinement) (fill : Fill) : StyleRefinement :=
  { s with background := some fill }

/-- `fn border_color`: sets the border color of the element. -/
def border_color (s : StyleRefinement) (c : Hsla) : StyleRefinement :=
  { s with border_color := some c }

/-- `fn shadow`: sets the box shadow list of the element wholesale. -/
def shadow (s : StyleRefinement) (shadows : List BoxShadow) : StyleRefinement :=
  { s with box_shadow := some shadows }

/-- `fn shadow_none`: clears the box shadow of the element (the `Default`
shadow list is empty). -/
def shadow_none (s : StyleRefinement) : StyleRefinement :=
  { s with box_shadow := some [] }

/-- `fn shadow_sm`: the "small" shadow preset. -/
def shadow_sm (s : StyleRefinement) : StyleRefinement :=
  { s with box_shadow := some [
      { color := hsla 0 0 0 0.05,
        offset := point (px 0) (px 1),
        blur_radius := px 2,
        spread_radius := px 0 }] }

/-- `fn shadow_md`: the "medium" shadow preset. -/
def shadow_md (s : StyleRefinement) : StyleRefinement :=
  { s with box_shadow := some [
      { color := hsla 0.5 0 0 0.1,
        offset := point (px 0) (px 4),
        blur_radius := px 6,
        spread_radius := px (-1) },
      { color := hsla 0 0 0 0.1,
        offset := point (px 0) (px 2),
        blur_radius := px 4,
        spread_radius := px (-2) }] }

/-- `fn shadow_lg`: the "large" shadow preset. -/
def shadow_lg (s : StyleRefinement) : StyleRefinement :=
  { s with box_shadow := some [
      { color := hsla 0 0 0 0.1,
        offset := point (px 0) (px 10),
        blur_radius := px 15,
        spread_radius := px (-3) },
      { color := hsla 0 0 0 0.1,
        offset := point (px 0) (px 4),
        blur_radius := px 6,
        spread_radius := px (-4) }] }

/-- `fn shadow_xl`: the "extra-large" shadow preset. -/
def shadow_xl (s : StyleRefinement) : StyleRefinement :=
  { s with box_shadow := some [
      { color := hsla 0 0 0 0.1,
        offset := point (px 0) (px 20),
        blur_radius := px 25,
        spread_radius := px (-5) },
      { color := hsla 0 0 0 0.1,
        offset := point (px 0) (px 8),
        blur_radius := px 10,
        spread_radius := px (-6) }] }

/-- `fn shadow_2xl`: the "2-times-extra-large" shadow preset. -/
def shadow_2xl (s : StyleRefinement) : StyleRefinement :=
  { s with box_shadow := some [
      { color := hsla 0 0 0 0.25,
        offset := point (px 0) (px 25),
        blur_radius := px 50,
        spread_radius := px (-12) }] }

/-- `fn text_color`: sets the text color. -/
def text_color (s : StyleRefinement) (color : Hsla) : StyleRefinement :=
  { s with text := { s.text with color := some color } }

/-- `fn text_bg`: sets the text background color. -/
def text_bg (s : StyleRefinement) (b : Hsla) : StyleRefinement :=
  { s with text := { s.text with background_color := some b } }

/-- `fn text_size`: sets the font size. -/
def text_size (s : StyleRefinement) (size : AbsoluteLength) : StyleRefinement :=
  { s with text := { s.text with font_size := some size } }

/-- `fn text_xs`: font size 0.75 rem. -/
def text_xs (s : StyleRefinement) : StyleRefinement :=
  { s with text := { s.text with
      font_size := some (AbsoluteLength.Rems (rems 0.75)) } }

/-- `fn text_sm`: font size 0.875 rem. -/
def text_sm (s : StyleRefinement) : StyleRefinement :=
  { s with text := { s.text with
      font_size := some (AbsoluteLength.Rems (rems 0.875)) } }

/-- `fn text_base`: font size 1.0 rem. -/
def text_base (s : StyleRefinement) : StyleRefinement :=
  { s with text := { s.text with
      font_size := some (AbsoluteLength.Rems (rems 1)) } }

/-- `fn text_lg`: font size 1.125 rem. -/
def text_lg (s : StyleRefinement) : StyleRefinement :=
  { s with text := { s.text with
      font_size := some (AbsoluteLength.Rems (rems 1.125)) } }

/-- `fn text_xl`: font size 1.25 rem. -/
def text_xl (s : StyleRefinement) : StyleRefinement :=
  { s with text := { s.text with
      font_size := some (AbsoluteLength.Rems (rems 1.25)) } }

/-- `fn text_2xl`: font size 1.5 rem. -/
def text_2xl (s : StyleRefinement) : StyleRefinement :=
  { s with text := { s.text with
      font_size := some (AbsoluteLength.Rems (rems 1.5)) } }

/-- `fn text_3xl`: font size 1.875 rem. -/
def text_3xl (s : StyleRefinement) : StyleRefinement :=
  { s with text := { s.text with
      font_size := some (AbsoluteLength.Rems (rems 1.875)) } }

/-- `fn text_decoration_none`: clears the underline descriptor of the text
style to `None`. -/
def text_decoration_none (s : StyleRefinement) : StyleRefinement :=
  { s with text := { s.text with underline := none } }

/-- `fn text_decoration_color`: materializes the underline descriptor with
`Default` if absent (`get_or_insert_with(Default::default)`), then sets its
color. -/
def text_decoration_color (s : StyleRefinement) (color : Hsla) : StyleRefinement :=
  let underline := s.text.underline.getD default
  { s with text := { s.text with
      underline := some { underline with color := some color } } }

/-- `fn text_decoration_solid`: materializes the underline descriptor if
absent, then sets `wavy := false`. -/
def text_decoration_solid (s : StyleRefinement) : StyleRefinement :=
  let underline := s.text.underline.getD default
  { s with text := { s.text with
      underline := some { underline with wavy := false } } }

/-- `fn text_decoration_wavy`: materializes the underline descriptor if
absent, then sets `wavy := true`. -/
def text_decoration_wavy (s : StyleRefinement) : StyleRefinement :=
  let underline := s.text.underline.getD default
  { s with text := { s.text with
      underline := some { underline with wavy := true } } }

/-- `fn text_decoration_0`: materializes the underline descriptor if absent,
then sets its thickness to 0 pixels. -/
def text_decoration_0 (s : StyleRefinement) : StyleRefinement :=
  let underline := s.text.underline.getD default
  { s with text := { s.text with
      underline := some { underline with thickness := px 0 } } }

/-- `fn text_decoration_1`: materializes the underline descriptor if absent,
then sets its thickness to 1 pixel. -/
def text_decoration_1 (s : StyleRefinement) : StyleRefinement :=
  let underline := s.text.underline.getD default
  { s with text := { s.text with
      underline := some { underline with thickness := px 1 } } }

/-- `fn text_decoration_2`: materializes the underline descriptor if absent,
then sets its thickness to 2 pixels. -/
def text_decoration_2 (s : StyleRefinement) : StyleRefinement :=
  let underline := s.text.underline.getD default
  { s with text := { s.text with
      underline := some { underline with thickness := px 2 } } }

/-- `fn text_decoration_4`: materializes the underline descriptor if absent,
then sets its thickness to 4 pixels. -/
def text_decoration_4 (s : StyleRefinement) : StyleRefinement :=
  let underline := s.text.underline.getD default
  { s with text := { s.text with
      underline := some { underline with thickness := px 4 } } }

/-- `fn text_decoration_8`: materializes the underline descriptor if absent,
then sets its thickness to 8 pixels. -/
def text_decoration_8 (s : StyleRefinement) : StyleRefinement :=
  let underline := s.text.underline.getD default
  { s with text := { s.text with
      underline := some { underline with thickness := px 8 } } }

/-- `fn font`: sets the font family of the text style. -/
def font (s : StyleRefinement) (family_name : String) : StyleRefinement :=
  { s with text := { s.text with font_family := some family_name } }

/-- `fn line_height`: sets the line height of the text style. -/
def line_height (s : StyleRefinement) (lh : DefiniteLength) : StyleRefinement :=
  { s with text := { s.text with line_height := some lh } }

end Styled

/-!
Algebraic view of the builder surface, for the quantified properties
(commutativity of setters for disjoint fields, last-write-wins, frame
conditions). `Op` has one constructor per family of builder methods; a
parametrized constructor covers the macro-like family of methods that write
one enumeration value to one field (e.g. `positionOp` covers `relative` and
`absolute`, `cursorOp` covers `cursor` and every `cursor_*` helper,
`decorationThicknessOp` covers `text_decoration_0/1/2/4/8`), so every method
of the trait is an instance of exactly one constructor.
-/

/-- One constructor per family of builder methods of the `Styled` trait. -/
inductive Op where
  | zIndexOp (z : Nat)
  | fullOp
  | positionOp (p : Position)
  | displayOp (d : Display)
  | visibilityOp (v : Visibility)
  | overflowHiddenOp
  | overflowHiddenXOp
  | overflowHiddenYOp
  | cursorOp (c : CursorStyle)
  | whiteSpaceOp (w : WhiteSpace)
  | flexDirectionOp (d : FlexDirection)
  | flex1Op
  | flexAutoOp
  | flexInitialOp
  | flexNoneOp
  | flexGrowOp
  | alignItemsOp (a : AlignItems)
  | justifyOp (j : JustifyContent)
  | bgOp (f : Fill)
  | borderColorOp (c : Hsla)
  | shadowOp (l : List BoxShadow)
  | textColorOp (c : Hsla)
  | textBgOp (c : Hsla)
  | fontSizeOp (sz : AbsoluteLength)
  | decorationNoneOp
  | decorationColorOp (c : Hsla)
  | decorationSolidOp
  | decorationWavyOp
  | decorationThicknessOp (t : Pixels)
  | fontOp (f : String)
  | lineHeightOp (lh : DefiniteLength)
deriving DecidableEq, Repr

/-- The action of each builder-method family on a refinement record, in terms
of the method definitions above (a parametrized constructor performs the one
field write shared by its whole family). -/
def applyOp : Op → StyleRefinement → StyleRefinement
  | .zIndexOp z, s => Styled.z_index s z
  | .fullOp, s => Styled.full s
  | .positionOp p, s => { s with position := some p }
  | .displayOp d, s => { s with display := some d }
  | .visibilityOp v, s => { s with visibility := some v }
  | .overflowHiddenOp, s => Styled.overflow_hidden s
  | .overflowHiddenXOp, s => Styled.overflow_hidden_x s
  | .overflowHiddenYOp, s => Styled.overflow_hidden_y s
  | .cursorOp c, s => Styled.cursor s c
  | .whiteSpaceOp w, s => { s with text := { s.text with white_space := some w } }
  | .flexDirectionOp d, s => { s with flex_direction := some d }
  | .flex1Op, s => Styled.flex_1 s
  | .flexAutoOp, s => Styled.flex_auto s
  | .flexInitialOp, s => Styled.flex_initial s
  | .flexNoneOp, s => Styled.flex_none s
  | .flexGrowOp, s => Styled.flex_grow s
  | .alignItemsOp a, s => { s with align_items := some a }
  | .justifyOp j, s => { s with justify_content := some j }
  | .bgOp f, s => Styled.bg s f
  | .borderColorOp c, s => Styled.border_color s c
  | .shadowOp l, s => Styled.shadow s l
  | .textColorOp c, s => Styled.text_color s c
  | .textBgOp c, s => Styled.text_bg s c
  | .fontSizeOp sz, s => Styled.text_size s sz
  | .decorationNoneOp, s => Styled.text_decoration_none s
  | .decorationColorOp c, s => Styled.text_decoration_color s c
  | .decorationSolidOp, s => Styled.text_decoration_solid s
  | .decorationWavyOp, s => Styled.text_decoration_wavy s
  | .decorationThicknessOp t, s =>
      let underline := s.text.underline.getD default
      { s with text := { s.text with
          underline := some { underline with thickness := t } } }
  | .fontOp f, s => Styled.font s f
  | .lineHeightOp lh, s => Styled.line_height s lh

/-- The atomic fields of a refinement record: one name per independently
set-or-unset leaf (the size, overflow and text sub-records contribute their
leaves; the underline descriptor is one atom, since the builder reads and
replaces it as a whole). -/
inductive Atom where
  | zIndexA
  | widthA
  | heightA
  | positionA
  | displayA
  | visibilityA
  | overflowXA
  | overflowYA
  | cursorA
  | flexDirectionA
  | flexGrowA
  | flexShrinkA
  | flexBasisA
  | alignItemsA
  | justifyA
  | backgroundA
  | borderColorA
  | boxShadowA
  | textColorA
  | fontFamilyA
  | fontSizeA
  | lineHeightA
  | textBackgroundA
  | underlineA
  | whiteSpaceA
deriving DecidableEq, Repr

/-- The type stored at each atomic field. -/
def AtomVal : Atom → Type
  | .zIndexA => Option Nat
  | .widthA => Option Length
  | .heightA => Option Length
  | .positionA => Option Position
  | .displayA => Option Display
  | .visibilityA => Option Visibility
  | .overflowXA => Option Overflow
  | .overflowYA => Option Overflow
  | .cursorA => Option CursorStyle
  | .flexDirectionA => Option FlexDirection
  | .flexGrowA => Option ℚ
  | .flexShrinkA => Option ℚ
  | .flexBasisA => Option Length
  | .alignItemsA => Option AlignItems
  | .justifyA => Option JustifyContent
  | .backgroundA => Option Fill
  | .borderColorA => Option Hsla
  | .boxShadowA => Option (List BoxShadow)
  | .textColorA => Option Hsla
  | .fontFamilyA => Option String
  | .fontSizeA => Option AbsoluteLength
  | .lineHeightA => Option DefiniteLength
  | .textBackgroundA => Option Hsla
  | .underlineA => Option UnderlineStyle
  | .whiteSpaceA => Option WhiteSpace

/-- Projection of a refinement record at an atomic field. -/
def getAtom : (a : Atom) → StyleRefinement → AtomVal a
  | .zIndexA, s => s.z_index
  | .widthA, s => s.size.width
  | .heightA, s => s.size.height
  | .positionA, s => s.position
  | .displayA, s => s.display
  | .visibilityA, s => s.visibility
  | .overflowXA, s => s.overflow.x
  | .overflowYA, s => s.overflow.y
  | .cursorA, s => s.mouse_cursor
  | .flexDirectionA, s => s.flex_direction
  | .flexGrowA, s => s.flex_grow
  | .flexShrinkA, s => s.flex_shrink
  | .flexBasisA, s => s.flex_basis
  | .alignItemsA, s => s.align_items
  | .justifyA, s => s.justify_content
  | .backgroundA, s => s.background
  | .borderColorA, s => s.border_color
  | .boxShadowA, s => s.box_shadow
  | .textColorA, s => s.text.color
  | .fontFamilyA, s => s.text.font_family
  | .fontSizeA, s => s.text.font_size
  | .lineHeightA, s => s.text.line_height
  | .textBackgroundA, s => s.text.background_color
  | .underlineA, s => s.text.underline
  | .whiteSpaceA, s => s.text.white_space

/-- The atomic fields each builder-method family reads or writes. -/
def footprint : Op → List Atom
  | .zIndexOp _ => [.zIndexA]
  | .fullOp => [.widthA, .heightA]
  | .positionOp _ => [.positionA]
  | .displayOp _ => [.displayA]
  | .visibilityOp _ => [.visibilityA]
  | .overflowHiddenOp => [.overflowXA, .overflowYA]
  | .overflowHiddenXOp => [.overflowXA]
  | .overflowHiddenYOp => [.overflowYA]
  | .cursorOp _ => [.cursorA]
  | .whiteSpaceOp _ => [.whiteSpaceA]
  | .flexDirectionOp _ => [.flexDirectionA]
  | .flex1Op => [.flexGrowA, .flexShrinkA, .flexBasisA]
  | .flexAutoOp => [.flexGrowA, .flexShrinkA, .flexBasisA]
  | .flexInitialOp => [.flexGrowA, .flexShrinkA, .flexBasisA]
  | .flexNoneOp => [.flexGrowA, .flexShrinkA]
  | .flexGrowOp => [.flexGrowA]
  | .alignItemsOp _ => [.alignItemsA]
  | .justifyOp _ => [.justifyA]
  | .bgOp _ => [.backgroundA]
  | .borderColorOp _ => [.borderColorA]
  | .shadowOp _ => [.boxShadowA]
  | .textColorOp _ => [.textColorA]
  | .textBgOp _ => [.textBackgroundA]
  | .fontSizeOp _ => [.fontSizeA]
  | .decorationNoneOp => [.underlineA]
  | .decorationColorOp _ => [.underlineA]
  | .decorationSolidOp => [.underlineA]
  | .decorationWavyOp => [.underlineA]
  | .decorationThicknessOp _ => [.underlineA]
  | .fontOp _ => [.fontFamilyA]
  | .lineHeightOp _ => [.lineHeightA]

/-- Two builder-method families have disjoint footprints: no atomic field is
read or written by both. -/
def disjointFp (o1 o2 : Op) : Bool :=
  (footprint o1).all fun a => !((footprint o2).contains a)

/-- Whether two operations belong to the same builder-method family (the same
setter, possibly with different arguments). -/
def sameFamily : Op → Op → Bool
  | .zIndexOp _, .zIndexOp _ => true
  | .fullOp, .fullOp => true
  | .positionOp _, .positionOp _ => true
  | .displayOp _, .displayOp _ => true
  | .visibilityOp _, .visibilityOp _ => true
  | .overflowHiddenOp, .overflowHiddenOp => true
  | .overflowHiddenXOp, .overflowHiddenXOp => true
  | .overflowHiddenYOp, .overflowHiddenYOp => true
  | .cursorOp _, .cursorOp _ => true
  | .whiteSpaceOp _, .whiteSpaceOp _ => true
  | .flexDirectionOp _, .flexDirectionOp _ => true
  | .flex1Op, .flex1Op => true
  | .flexAutoOp, .flexAutoOp => true
  | .flexInitialOp, .flexInitialOp => true
  | .flexNoneOp, .flexNoneOp => true
  | .flexGrowOp, .flexGrowOp => true
  | .alignItemsOp _, .alignItemsOp _ => true
  | .justifyOp _, .justifyOp _ => true
  | .bgOp _, .bgOp _ => true
  | .borderColorOp _, .borderColorOp _ => true
  | .shadowOp _, .shadowOp _ => true
  | .textColorOp _, .textColorOp _ => true
  | .textBgOp _, .textBgOp _ => true
  | .fontSizeOp _, .fontSizeOp _ => true
  | .decorationNoneOp, .decorationNoneOp => true
  | .decorationColorOp _, .decorationColorOp _ => true
  | .decorationSolidOp, .decorationSolidOp => true
  | .decorationWavyOp, .decorationWavyOp => true
  | .decorationThicknessOp _, .decorationThicknessOp _ => true
  | .fontOp _, .fontOp _ => true
  | .lineHeightOp _, .lineHeightOp _ => true
  | _, _ => false

/-!
Theorems settling the claims. Each theorem is stated over the builder
definitions above; quantified claims about "every setter" are stated over
`Op`, whose constructors cover every method of the trait.
-/

/-- Claim C1, as stated, is false: `text_decoration_none` on a record whose
underline was previously set (here by `text_decoration_2` on the default
record) yields exactly the default record again — it is NOT distinguishable
from a record on which no underline operation was ever performed, because the
builder stores the cleared underline as `none`, the same value as never-set. -/
theorem text_decoration_none_equals_never_set_on_default :
    Styled.text_decoration_none
        (Styled.text_decoration_2 (default : StyleRefinement))
      = (default : StyleRefinement)
    ∧ (default : StyleRefinement).text.underline = none := ⟨rfl, rfl⟩

/-- Claim C1 (amended): `text_decoration_none` on a record whose underline
sub-fields were previously set yields a record in which the underline
descriptor is fully absent; but that record is identical to — not
distinguishable from — the record with underline never touched: clearing
after setting equals clearing alone, and on a record that never touched
underline it restores the record exactly. -/
theorem text_decoration_none_clears_but_indistinguishable (σ : StyleRefinement) :
    (Styled.text_decoration_none (Styled.text_decoration_2 σ)).text.underline = none
    ∧ Styled.text_decoration_none (Styled.text_decoration_2 σ)
        = Styled.text_decoration_none σ
    ∧ (σ.text.underline = none →
        Styled.text_decoration_none (Styled.text_decoration_2 σ) = σ) := by
  refine ⟨rfl, rfl, ?_⟩
  intro h
  obtain ⟨z, sz, pos, disp, vis, ov, cur, fd, fg, fs, fb, ai, jc, bgr, bc, bs,
    ⟨tc, tff, tfs, tlh, tbg, tu, tws⟩⟩ := σ
  have h' : tu = none := h
  subst h'
  rfl

/-- Witness for the amended C1 theorem at the default record. -/
theorem text_decoration_none_clears_but_indistinguishable_witness :
    (default : StyleRefinement).text.underline = none
    ∧ Styled.text_decoration_none (Styled.text_decoration_2 (default : StyleRefinement))
        = (default : StyleRefinement) :=
  ⟨rfl, (text_decoration_none_clears_but_indistinguishable default).2.2 rfl⟩

/-- Claim C2: `shadow_sm` sets the box-shadow list to exactly one descriptor
with color alpha 0.05, vertical offset 1 pixel, blur radius 2 pixels and
spread radius 0; `shadow_2xl` sets it to exactly one descriptor with color
alpha 0.25, vertical offset 25 pixels, blur radius 50 pixels and spread
radius -12 pixels. -/
theorem shadow_sm_and_2xl_preset_literals (σ : StyleRefinement) :
    (Styled.shadow_sm σ).box_shadow = some [
      { color := hsla 0 0 0 0.05,
        offset := point (px 0) (px 1),
        blur_radius := px 2,
        spread_radius := px 0 }]
    ∧ (Styled.shadow_2xl σ).box_shadow = some [
      { color := hsla 0 0 0 0.25,
        offset := point (px 0) (px 25),
        blur_radius := px 50,
        spread_radius := px (-12) }] := ⟨rfl, rfl⟩

/-- Claim C3: the first underline mutation on a record with no prior
underline state materializes the descriptor with defined defaults for the
untouched sub-fields: `text_decoration_2` on such a record yields an
underline descriptor with no explicit color, solid (not wavy) style, and the
requested thickness of 2 device pixels. -/
theorem text_decoration_2_lazy_materialization (σ : StyleRefinement)
    (h : σ.text.underline = none) :
    (Styled.text_decoration_2 σ).text.underline =
      some { color := none, wavy := false, thickness := px 2 } := by
  obtain ⟨z, sz, pos, disp, vis, ov, cur, fd, fg, fs, fb, ai, jc, bgr, bc, bs,
    ⟨tc, tff, tfs, tlh, tbg, tu, tws⟩⟩ := σ
  have h' : tu = none := h
  subst h'
  rfl

/-- Witness for the C3 theorem at the default record. -/
theorem text_decoration_2_lazy_materialization_witness :
    (default : StyleRefinement).text.underline = none
    ∧ (Styled.text_decoration_2 (default : StyleRefinement)).text.underline =
        some { color := none, wavy := false, thickness := px 2 } :=
  ⟨rfl, text_decoration_2_lazy_materialization default rfl⟩

/-- Claim C4: the flex shorthand presets set exactly the stated bundles:
`flex_1` sets grow = 1, shrink = 1, basis = container-relative 0; `flex_auto`
sets grow = 1, shrink = 1, basis = auto; `flex_initial` sets grow = 0,
shrink = 1, basis = auto; `flex_none` sets grow = 0, shrink = 0 and leaves
the basis untouched; `flex_grow` sets grow = 1 and leaves shrink and basis
untouched (each equation's right-hand side keeps every other field of the
starting record). -/
theorem flex_shorthand_preset_bundles (σ : StyleRefinement) :
    Styled.flex_1 σ =
      { σ with
        flex_grow := some 1
        flex_shrink := some 1
        flex_basis := some (Length.Definite (DefiniteLength.Fraction 0)) }
    ∧ Styled.flex_auto σ =
      { σ with
        flex_grow := some 1
        flex_shrink := some 1
        flex_basis := some Length.Auto }
    ∧ Styled.flex_initial σ =
      { σ with
        flex_grow := some 0
        flex_shrink := some 1
        flex_basis := some Length.Auto }
    ∧ Styled.flex_none σ = { σ with flex_grow := some 0, flex_shrink := some 0 }
    ∧ Styled.flex_grow σ = { σ with flex_grow := some 1 } :=
  ⟨rfl, rfl, rfl, rfl, rfl⟩

/-- Claim C5: every shadow operation replaces the entire box-shadow list
rather than appending: for every prior record contents, `shadow` stores
exactly the given list, `shadow_none` the empty list, and each preset its
fixed descriptors, independent of whatever the list held before. -/
theorem shadow_operations_replace_wholesale (σ : StyleRefinement)
    (l : List BoxShadow) :
    Styled.shadow σ l = { σ with box_shadow := some l }
    ∧ Styled.shadow_none σ = { σ with box_shadow := some [] }
    ∧ Styled.shadow_sm σ = { σ with box_shadow := some [
        { color := hsla 0 0 0 0.05, offset := point (px 0) (px 1),
          blur_radius := px 2, spread_radius := px 0 }] }
    ∧ Styled.shadow_md σ = { σ with box_shadow := some [
        { color := hsla 0.5 0 0 0.1, offset := point (px 0) (px 4),
          blur_radius := px 6, spread_radius := px (-1) },
        { color := hsla 0 0 0 0.1, offset := point (px 0) (px 2),
          blur_radius := px 4, spread_radius := px (-2) }] }
    ∧ Styled.shadow_lg σ = { σ with box_shadow := some [
        { color := hsla 0 0 0 0.1, offset := point (px 0) (px 10),
          blur_radius := px 15, spread_radius := px (-3) },
        { color := hsla 0 0 0 0.1, offset := point (px 0) (px 4),
          blur_radius := px 6, spread_radius := px (-4) }] }
    ∧ Styled.shadow_xl σ = { σ with box_shadow := some [
        { color := hsla 0 0 0 0.1, offset := point (px 0) (px 20),
          blur_radius := px 25, spread_radius := px (-5) },
        { color := hsla 0 0 0 0.1, offset := point (px 0) (px 8),
          blur_radius := px 10, spread_radius := px (-6) }] }
    ∧ Styled.shadow_2xl σ = { σ with box_shadow := some [
        { color := hsla 0 0 0 0.25, offset := point (px 0) (px 25),
          blur_radius := px 50, spread_radius := px (-12) }] } :=
  ⟨rfl, rfl, rfl, rfl, rfl, rfl, rfl⟩

/-- Claim C6: `full` sets both the width and the height of the refinement
record to the container-relative length 100% (fraction 1), and nothing else
(every other field of the result comes from the starting record). -/
theorem full_sets_width_and_height_to_relative_one (σ : StyleRefinement) :
    Styled.full σ = { σ with size :=
      { width := some (Length.Definite (DefiniteLength.Fraction 1)),
        height := some (Length.Definite (DefiniteLength.Fraction 1)) } } := rfl

/-- Claim C7: setters whose footprints are disjoint (they target different,
non-aliasing fields) commute: applying the two in either order yields
identical refinement records, for every starting record and all arguments. -/
theorem disjoint_footprint_setters_commute (o1 o2 : Op) (σ : StyleRefinement)
    (h : disjointFp o1 o2 = true) :
    applyOp o2 (applyOp o1 σ) = applyOp o1 (applyOp o2 σ) := by
  cases o1 <;> cases o2 <;> first | rfl | exact Bool.noConfusion h

/-- Witness for the C7 theorem: `z_index` then `flex_col` equals `flex_col`
then `z_index` on the default record. -/
theorem disjoint_footprint_setters_commute_witness :
    disjointFp (Op.zIndexOp 5) (Op.flexDirectionOp FlexDirection.Column) = true
    ∧ applyOp (Op.flexDirectionOp FlexDirection.Column)
        (applyOp (Op.zIndexOp 5) (default : StyleRefinement))
      = applyOp (Op.zIndexOp 5)
        (applyOp (Op.flexDirectionOp FlexDirection.Column) (default : StyleRefinement)) :=
  ⟨by decide, disjoint_footprint_setters_commute _ _ _ (by decide)⟩

/-- Claim C8: applying two setters of the same family (the same setter,
possibly with different arguments) in a chain yields the same refinement
record as applying the later one alone: last write wins, for every starting
record. -/
theorem same_setter_last_write_wins (o1 o2 : Op) (σ : StyleRefinement)
    (h : sameFamily o1 o2 = true) :
    applyOp o2 (applyOp o1 σ) = applyOp o2 σ := by
  cases o1 <;> cases o2 <;> first | rfl | exact Bool.noConfusion h

/-- Witness for the C8 theorem: `bg a` then `bg b` equals `bg b` on the
default record. -/
theorem same_setter_last_write_wins_witness :
    sameFamily (Op.bgOp (Fill.Color (hsla 0 0 0 1)))
        (Op.bgOp (Fill.Color (hsla 0.5 0.5 0.5 1))) = true
    ∧ applyOp (Op.bgOp (Fill.Color (hsla 0.5 0.5 0.5 1)))
        (applyOp (Op.bgOp (Fill.Color (hsla 0 0 0 1))) (default : StyleRefinement))
      = applyOp (Op.bgOp (Fill.Color (hsla 0.5 0.5 0.5 1))) (default : StyleRefinement) :=
  ⟨by decide, same_setter_last_write_wins _ _ _ (by decide)⟩

/-- Claim C9: every builder method mutates only its targeted fields: an
atomic field outside a method's footprint is unchanged by it; the atomic
fields determine the whole record (so nothing outside them can change); and
in particular `invisible` sets only the visibility field, to `Hidden`,
leaving the display field untouched. -/
theorem builder_methods_frame_effect :
    (∀ (o : Op) (σ : StyleRefinement) (a : Atom),
        (footprint o).contains a = false →
        getAtom a (applyOp o σ) = getAtom a σ)
    ∧ (∀ σ σ' : StyleRefinement,
        (∀ a : Atom, getAtom a σ = getAtom a σ') → σ = σ')
    ∧ (∀ σ : StyleRefinement,
        (Styled.invisible σ).visibility = some Visibility.Hidden
        ∧ (Styled.invisible σ).display = σ.display) := by
  refine ⟨?_, ?_, fun σ => ⟨rfl, rfl⟩⟩
  · intro o σ a h
    cases o <;> cases a <;> first | rfl | exact Bool.noConfusion h
  · intro σ σ' h
    obtain ⟨z, ⟨w, ht⟩, pos, disp, vis, ⟨ox, oy⟩, cur, fd, fg, fs, fb, ai, jc,
      bgr, bc, bs, ⟨tc, tff, tfs, tlh, tbg, tu, tws⟩⟩ := σ
    obtain ⟨z', ⟨w', ht'⟩, pos', disp', vis', ⟨ox', oy'⟩, cur', fd', fg', fs',
      fb', ai', jc', bgr', bc', bs', ⟨tc', tff', tfs', tlh', tbg', tu', tws'⟩⟩ := σ'
    rw [show z = z' from h .zIndexA, show w = w' from h .widthA,
      show ht = ht' from h .heightA, show pos = pos' from h .positionA,
      show disp = disp' from h .displayA, show vis = vis' from h .visibilityA,
      show ox = ox' from h .overflowXA, show oy = oy' from h .overflowYA,
      show cur = cur' from h .cursorA, show fd = fd' from h .flexDirectionA,
      show fg = fg' from h .flexGrowA, show fs = fs' from h .flexShrinkA,
      show fb = fb' from h .flexBasisA, show ai = ai' from h .alignItemsA,
      show jc = jc' from h .justifyA, show bgr = bgr' from h .backgroundA,
      show bc = bc' from h .borderColorA, show bs = bs' from h .boxShadowA,
      show tc = tc' from h .textColorA, show tff = tff' from h .fontFamilyA,
      show tfs = tfs' from h .fontSizeA, show tlh = tlh' from h .lineHeightA,
      show tbg = tbg' from h .textBackgroundA, show tu = tu' from h .underlineA,
      show tws = tws' from h .whiteSpaceA]

/-- Witness for the C9 theorem: `invisible` (the `visibilityOp` family) does
not change the display field of the default record. -/
theorem builder_methods_frame_effect_witness :
    (footprint (Op.visibilityOp Visibility.Hidden)).contains Atom.displayA = false
    ∧ getAtom Atom.displayA
        (applyOp (Op.visibilityOp Visibility.Hidden) (default : StyleRefinement))
      = getAtom Atom.displayA (default : StyleRefinement) :=
  ⟨by decide, builder_methods_frame_effect.1 _ _ _ (by decide)⟩

/-- Claim C10: the cursor-intent mapping is not injective: for every starting
record, `cursor_no_drop` yields the same record as `cursor_not_allowed` (both
store `OperationNotAllowed`), and `cursor_grabbing` yields the same record as
`cursor_move` (both store `ClosedHand`). -/
theorem cursor_intent_mapping_not_injective (σ : StyleRefinement) :
    Styled.cursor_no_drop σ = Styled.cursor_not_allowed σ
    ∧ (Styled.cursor_no_drop σ).mouse_cursor = some CursorStyle.OperationNotAllowed
    ∧ Styled.cursor_grabbing σ = Styled.cursor_move σ
    ∧ (Styled.cursor_grabbing σ).mouse_cursor = some CursorStyle.ClosedHand :=
  ⟨rfl, rfl, rfl, rfl⟩
